import Mathlib

/-
Shallow embedding of `netbox/dcim/models/device_components.py`
(device-component data models of a data-center infrastructure
management application) together with proofs about its validation
hooks, cable-path tracing, power-draw aggregation and VLAN
normalization logic.

Django conventions captured by the embedding:
* a `clean()` method either returns normally or raises; we embed it as
  a function into `Except CleanError Unit`;
* a `ValidationError({field: msg})` is `CleanError.validation f` where
  `f` names the dictionary key used at the raise site;
* an access to an attribute that the model does not define raises
  `AttributeError`, embedded as `CleanError.attributeError`;
* nullable scalar fields and foreign keys are `Option`s; a blank
  CharField is represented as `none`;
* database rows visible to a queryset are passed explicitly as lists.
-/

namespace NetboxDCIM

/-- Keys of the dictionaries passed to `ValidationError` at the raise
sites of `device_components.py` (plus the non-field variants). -/
inductive Field where
  | mark_connected
  | iface_type
  | parent
  | lag
  | rf_role
  | rf_channel
  | rf_channel_width
  | untagged_vlan
  | allocated_draw
  | rear_port
  | rear_port_position
  | positions
deriving DecidableEq, Repr

/-- Outcome of a failed `clean()` call: a Django `ValidationError`
keyed by a field, or a Python `AttributeError` escaping the method. -/
inductive CleanError where
  | validation (f : Field)
  | attributeError
deriving DecidableEq, Repr

/-- The attributes of a `dcim.Device` row that the component models
consult: primary key, site FK, and virtual-chassis FK. -/
structure Device where
  pk : Nat
  site : Option Nat
  virtual_chassis : Option Nat
deriving DecidableEq, Repr

/-- The attributes of an `ipam.VLAN` row used by `Interface.clean`:
primary key and (nullable) site FK. -/
structure VLAN where
  pk : Nat
  site : Option Nat
deriving DecidableEq, Repr

/-- A Python method body that performs a sequence of checks raises the
first failing one: `firstErr` turns the list of check outcomes (in
source order) into the method result. -/
def firstErr : List (Option CleanError) → Except CleanError Unit
  | [] => .ok ()
  | some e :: _ => .error e
  | none :: rest => firstErr rest

theorem firstErr_ok_iff (l : List (Option CleanError)) :
    firstErr l = .ok () ↔ ∀ o ∈ l, o = none := by
  induction l with
  | nil => simp [firstErr]
  | cons a rest ih =>
    cases a with
    | none => simp [firstErr, ih]
    | some e => simp [firstErr]

theorem firstErr_error_mem (l : List (Option CleanError)) (e : CleanError)
    (h : firstErr l = .error e) : some e ∈ l := by
  induction l with
  | nil => simp [firstErr] at h
  | cons a rest ih =>
    cases a with
    | none =>
      simp [firstErr] at h
      simp [ih h]
    | some e' =>
      simp [firstErr] at h
      simp [h]

theorem firstErr_ne_ok (l : List (Option CleanError)) (e : CleanError)
    (h : some e ∈ l) : firstErr l ≠ .ok () := by
  intro hok
  have := (firstErr_ok_iff l).mp hok (some e) h
  simp at this

theorem firstErr_exists_error (l : List (Option CleanError)) (e : CleanError)
    (h : some e ∈ l) : ∃ e', firstErr l = .error e' := by
  cases he : firstErr l with
  | ok u => cases u; exact absurd he (firstErr_ne_ok l e h)
  | error e' => exact ⟨e', rfl⟩

/-
`LinkTermination` (abstract): fields `cable` (FK, by pk) and
`mark_connected`; `clean()` forbids marking connected while a cable is
attached, `_occupied` reports either condition.
-/

namespace LinkTermination

/-- The single check of `LinkTermination.clean`:
`if self.mark_connected and self.cable_id: raise ValidationError({"mark_connected": ...})`. -/
def chk (mark_connected : Bool) (cable : Option Nat) : Option CleanError :=
  if mark_connected && cable.isSome then some (.validation .mark_connected) else none

/-- Embedding of `LinkTermination.clean` (its `super().clean()` is the
framework no-op). -/
def clean (mark_connected : Bool) (cable : Option Nat) : Except CleanError Unit :=
  firstErr [chk mark_connected cable]

/-- Embedding of the `LinkTermination._occupied` property:
`bool(self.mark_connected or self.cable_id)`. -/
def occupied (mark_connected : Bool) (cable : Option Nat) : Bool :=
  mark_connected || cable.isSome

end LinkTermination

/-
`PowerPort`: draw fields, `clean()` draw-consistency check, and
`get_power_draw()` aggregation over child `PowerOutlet`s.
-/

/-- Modelled from the spec: `PowerOutletFeedLegChoices` lives in
`dcim.choices`, which is not under `src/`; the spec's power-draw
sentence speaks of a per-leg breakdown "per feed leg" of a three-phase
feed, so the three feed legs of a three-phase circuit are modelled as
an enumeration. -/
inductive FeedLeg where
  | A
  | B
  | C
deriving DecidableEq, Repr

/-- Modelled from the spec: `PowerFeedPhaseChoices` lives in
`dcim.choices`, which is not under `src/`; the spec distinguishes only
whether a feed is three-phase, so the phase of a power feed is modelled
as a two-valued enumeration. -/
inductive PowerPhase where
  | singlePhase
  | threePhase
deriving DecidableEq, Repr

/-- The value of the `_link_peer` generic foreign key cached on a
power port: the far-end termination is a `PowerOutlet` or a
`PowerFeed`, identified by primary key. -/
inductive PowerLinkPeer where
  | poweroutlet (pk : Nat)
  | powerfeed (pk : Nat)
deriving DecidableEq, Repr

/-- The attributes of a `PowerPort` row used by `clean` and
`get_power_draw`. -/
structure PowerPortRec where
  pk : Nat
  mark_connected : Bool
  cable : Option Nat
  maximum_draw : Option Nat
  allocated_draw : Option Nat
  link_peer : Option PowerLinkPeer
deriving DecidableEq, Repr

/-- The attributes of a `PowerOutlet` row used by `get_power_draw`:
primary key, `power_port` FK (to the parent port's pk) and `feed_leg`
(blank for outlets not assigned to a leg). -/
structure PowerOutletRec where
  pk : Nat
  power_port : Option Nat
  feed_leg : Option FeedLeg
deriving DecidableEq, Repr

/-- The attributes of a `PowerFeed` row used by `get_power_draw`. -/
structure PowerFeedRec where
  pk : Nat
  phase : PowerPhase
deriving DecidableEq, Repr

/-- The rows visible to the querysets used by `get_power_draw`. -/
structure PowerDB where
  powerports : List PowerPortRec
  poweroutlets : List PowerOutletRec
  powerfeeds : List PowerFeedRec
deriving Repr

namespace PowerPort

/-- The draw-consistency check of `PowerPort.clean`:
`if self.maximum_draw is not None and self.allocated_draw is not None:
 if self.allocated_draw > self.maximum_draw: raise ...`. -/
def chkDraw (p : PowerPortRec) : Option CleanError :=
  match p.maximum_draw, p.allocated_draw with
  | some m, some a => if m < a then some (.validation .allocated_draw) else none
  | _, _ => none

/-- Embedding of `PowerPort.clean` (`super().clean()` is
`LinkTermination.clean`). -/
def clean (p : PowerPortRec) : Except CleanError Unit :=
  firstErr [LinkTermination.chk p.mark_connected p.cable, chkDraw p]

end PowerPort

/-- `PowerOutlet.objects.filter(power_port=self)`. -/
def childOutlets (db : PowerDB) (selfPk : Nat) : List PowerOutletRec :=
  db.poweroutlets.filter (fun o => o.power_port = some selfPk)

/-- `getattr(self._link_peer, 'phase', None)`: only a `PowerFeed` peer
has a `phase` attribute; resolving the generic FK looks the feed up by
primary key. -/
def peerPhase (db : PowerDB) : Option PowerLinkPeer → Option PowerPhase
  | some (.powerfeed i) => (db.powerfeeds.find? (fun f => f.pk = i)).map (·.phase)
  | _ => none

/-- The iteration order of `PowerOutletFeedLegChoices`. -/
def feedLegChoices : List FeedLeg := [.A, .B, .C]

/-- One entry of the `legs` list returned by `get_power_draw`. -/
structure LegDraw where
  name : FeedLeg
  allocated : Nat
  maximum : Nat
  outlet_count : Nat
deriving DecidableEq, Repr

/-- The dictionary returned by `get_power_draw`. -/
structure PowerDraw where
  allocated : Nat
  maximum : Nat
  outlet_count : Nat
  legs : List LegDraw
deriving DecidableEq, Repr

/-- The row predicate of `PowerPort.objects.filter(
_link_peer_type=poweroutlet_ct, _link_peer_id__in=outlet_ids)`: the
cached link peer is a `PowerOutlet` whose pk is among `outlet_ids`. -/
def peerFilter (outlet_ids : List Nat) (p : PowerPortRec) : Bool :=
  match p.link_peer with
  | some (.poweroutlet i) => decide (i ∈ outlet_ids)
  | _ => false

/-- `PowerPort.objects.filter(_link_peer_type=poweroutlet_ct,
_link_peer_id__in=outlet_ids)`. -/
def drawingPorts (db : PowerDB) (outlet_ids : List Nat) : List PowerPortRec :=
  db.powerports.filter (peerFilter outlet_ids)

/-- `Sum('col')` over a queryset ignores NULLs and yields NULL when no
value exists; the call sites apply `or 0`, so the embedded aggregate is
the sum of the present values (0 when none exist). -/
def sumDraw (ports : List PowerPortRec) (f : PowerPortRec → Option Nat) : Nat :=
  (ports.filterMap f).sum

/-- Embedding of `PowerPort.get_power_draw`. -/
def PowerPort.get_power_draw (db : PowerDB) (self : PowerPortRec) : PowerDraw :=
  if self.allocated_draw = none ∧ self.maximum_draw = none then
    let outlet_ids := (childOutlets db self.pk).map (·.pk)
    let ports := drawingPorts db outlet_ids
    let legs :=
      if peerPhase db self.link_peer = some PowerPhase.threePhase then
        feedLegChoices.map (fun leg =>
          let leg_ids := ((childOutlets db self.pk).filter
            (fun o => o.feed_leg = some leg)).map (·.pk)
          let leg_ports := drawingPorts db leg_ids
          { name := leg
            allocated := sumDraw leg_ports (·.allocated_draw)
            maximum := sumDraw leg_ports (·.maximum_draw)
            outlet_count := leg_ids.length })
      else []
    { allocated := sumDraw ports (·.allocated_draw)
      maximum := sumDraw ports (·.maximum_draw)
      outlet_count := outlet_ids.length
      legs := legs }
  else
    { allocated := self.allocated_draw.getD 0
      maximum := self.maximum_draw.getD 0
      outlet_count := (childOutlets db self.pk).length
      legs := [] }

/-
`PathEndpoint.trace`: the cable-path walk.  The `CablePath` model
itself lives in `dcim/models/cables.py`, outside the excerpt, so it is
abstracted as the data `trace` reads from it: the node list returned by
`get_path()` (terminations and cables along the walk, origin excluded)
and the `destination` endpoint (absent for a partially connected path).
Nodes are kept abstract (`β`): `trace` manipulates them opaquely.
-/

/-- The data `PathEndpoint.trace` reads from the associated
`dcim.CablePath` row: `get_path()` and `destination`. -/
structure CablePath (β : Type) where
  get_path : List β
  destination : Option β

/-- Embedding of `list(zip(*[iter(path)] * 3))`: consume the list three
elements at a time, dropping an incomplete tail. -/
def groupTriples {γ : Type} : List γ → List (γ × γ × γ)
  | a :: b :: c :: rest => (a, b, c) :: groupTriples rest
  | _ => []

/-- Flatten a list of three-tuples back into the underlying list. -/
def flat3 {γ : Type} : List (γ × γ × γ) → List γ
  | [] => []
  | (a, b, c) :: rest => a :: b :: c :: flat3 rest

/-- Number of `None` entries appended by
`while (len(path) + 1) % 3: path.append(None)` to a list of length
`n`: the loop runs until the length is 2 mod 3. -/
def padCount (n : Nat) : Nat := 2 - n % 3

/-- Embedding of `PathEndpoint.trace`.  The Python list mixes model
instances and `None`, so the embedded path is a `List (Option β)`:
`path = [self, *self._path.get_path()]`, then `None`-padding, then
`path.append(self._path.destination)`, then grouping into
three-tuples. -/
def PathEndpoint.trace {β : Type} (self : β) :
    Option (CablePath β) → List (Option β × Option β × Option β)
  | none => []
  | some cp =>
    let path : List (Option β) := some self :: cp.get_path.map some
    groupTriples ((path ++ List.replicate (padCount path.length) none) ++ [cp.destination])

theorem flat3_groupTriples {γ : Type} :
    ∀ l : List γ, l.length % 3 = 0 → flat3 (groupTriples l) = l
  | [], _ => rfl
  | [a], h => by simp at h
  | [a, b], h => by simp at h
  | a :: b :: c :: rest, h => by
    have hr : rest.length % 3 = 0 := by
      simp [List.length_cons] at h
      omega
    simp [groupTriples, flat3, flat3_groupTriples rest hr]

theorem flat3_append {γ : Type} (l₁ l₂ : List (γ × γ × γ)) :
    flat3 (l₁ ++ l₂) = flat3 l₁ ++ flat3 l₂ := by
  induction l₁ with
  | nil => rfl
  | cons t rest ih =>
    obtain ⟨a, b, c⟩ := t
    simp [flat3, ih]

/-
`Interface` and its `clean()` / `save()` logic.
-/

/-- Modelled from the spec: `InterfaceTypeChoices`,
`VIRTUAL_IFACE_TYPES` and `WIRELESS_IFACE_TYPES` live in
`dcim.choices` / `dcim.constants`, outside `src/`.  The spec and the
source distinguish virtual interfaces, LAGs (glossary: "a logical
grouping of physical interfaces"), wireless interfaces and the
remaining physical types, so interface types are modelled by that
four-way classification. -/
inductive InterfaceType where
  | virt
  | lagType
  | wireless
  | physical
deriving DecidableEq, Repr

/-- `InterfaceTypeChoices.TYPE_VIRTUAL`. -/
def TYPE_VIRTUAL : InterfaceType := .virt

/-- `VIRTUAL_IFACE_TYPES` (virtual and LAG interfaces). -/
def VIRTUAL_IFACE_TYPES : List InterfaceType := [.virt, .lagType]

/-- `WIRELESS_IFACE_TYPES`. -/
def WIRELESS_IFACE_TYPES : List InterfaceType := [.wireless]

/-- Modelled from the spec: `InterfaceModeChoices` lives in
`dcim.choices`, outside `src/`.  The source comments name the 802.1Q
modes: access, tagged, and "tagged all"; a blank mode is represented
as `none` at the use sites. -/
inductive InterfaceMode where
  | access
  | tagged
  | taggedAll
deriving DecidableEq, Repr

/-- `InterfaceModeChoices.MODE_TAGGED`. -/
def MODE_TAGGED : InterfaceMode := .tagged

/-- The attributes of the `Interface` row referenced by the `parent`
or `lag` foreign key that `Interface.clean` reads: its primary key and
its parent `Device`.  An `Interface` has no `virtual_chassis`
attribute (only its `Device` does); this matters for the embedding of
the parent-device check. -/
structure IfaceRef where
  pk : Nat
  device : Device
deriving DecidableEq, Repr

/-- The attributes of an `Interface` row used by `clean`, `save` and
`_occupied`.  `pk` is `none` for an unsaved instance; blank CharFields
(`rf_role`, `rf_channel`) are `none`; `tagged_vlans` is the
many-to-many set, by VLAN pk. -/
structure Interface where
  pk : Option Nat
  device : Device
  type : InterfaceType
  parent : Option IfaceRef
  lag : Option IfaceRef
  mark_connected : Bool
  cable : Option Nat
  wireless_link : Option Nat
  mode : Option InterfaceMode
  untagged_vlan : Option VLAN
  tagged_vlans : List Nat
  rf_role : Option String
  rf_channel : Option String
  rf_channel_width : Option Nat
deriving DecidableEq, Repr

namespace Interface

/-- `self.type in VIRTUAL_IFACE_TYPES`. -/
def is_virtual (i : Interface) : Prop := i.type ∈ VIRTUAL_IFACE_TYPES

instance (i : Interface) : Decidable i.is_virtual := by
  unfold is_virtual; infer_instance

/-- `self.type in WIRELESS_IFACE_TYPES`. -/
def is_wireless (i : Interface) : Prop := i.type ∈ WIRELESS_IFACE_TYPES

instance (i : Interface) : Decidable i.is_wireless := by
  unfold is_wireless; infer_instance

/-- `if self.is_virtual and self.cable: raise ValidationError({'type': ...})`. -/
def chkVirtualCable (i : Interface) : Option CleanError :=
  if i.is_virtual ∧ i.cable.isSome then some (.validation .iface_type) else none

/-- `if self.is_virtual and self.mark_connected: raise ValidationError({'mark_connected': ...})`. -/
def chkVirtualMark (i : Interface) : Option CleanError :=
  if i.is_virtual ∧ i.mark_connected then some (.validation .mark_connected) else none

/-- The parent-device block:
`if self.parent and self.parent.device != self.device:` raise a
`ValidationError({'parent': ...})` when `self.device.virtual_chassis`
is `None`; otherwise the code evaluates
`self.parent.device.virtual_chassis != self.parent.virtual_chassis`,
and since `Interface` has no attribute `virtual_chassis`, reading
`self.parent.virtual_chassis` raises `AttributeError` before the
comparison can decide anything. -/
def chkParentDevice (i : Interface) : Option CleanError :=
  match i.parent with
  | some p =>
    if p.device ≠ i.device then
      if i.device.virtual_chassis = none then some (.validation .parent)
      else some .attributeError
    else none
  | none => none

/-- `if self.pk and self.parent_id == self.pk: raise ValidationError({'parent': ...})`. -/
def chkSelfParent (i : Interface) : Option CleanError :=
  match i.pk, i.parent with
  | some k, some p => if p.pk = k then some (.validation .parent) else none
  | _, _ => none

/-- `if self.type != InterfaceTypeChoices.TYPE_VIRTUAL and self.parent is not None: raise ...`. -/
def chkPhysicalParent (i : Interface) : Option CleanError :=
  if i.type ≠ TYPE_VIRTUAL ∧ i.parent.isSome then some (.validation .parent) else none

/-- The LAG-device block:
`if self.lag and self.lag.device != self.device:` raise when the
device has no virtual chassis or when
`self.lag.device.virtual_chassis != self.device.virtual_chassis`. -/
def chkLagDevice (i : Interface) : Option CleanError :=
  match i.lag with
  | some l =>
    if l.device ≠ i.device then
      if i.device.virtual_chassis = none then some (.validation .lag)
      else if l.device.virtual_chassis ≠ i.device.virtual_chassis then some (.validation .lag)
      else none
    else none
  | none => none

/-- `if self.type == InterfaceTypeChoices.TYPE_VIRTUAL and self.lag is not None: raise ...`. -/
def chkVirtualLag (i : Interface) : Option CleanError :=
  if i.type = TYPE_VIRTUAL ∧ i.lag.isSome then some (.validation .lag) else none

/-- `if self.pk and self.lag_id == self.pk: raise ValidationError({'lag': ...})`. -/
def chkSelfLag (i : Interface) : Option CleanError :=
  match i.pk, i.lag with
  | some k, some l => if l.pk = k then some (.validation .lag) else none
  | _, _ => none

/-- `if self.rf_role and not self.is_wireless: raise ...`. -/
def chkRfRole (i : Interface) : Option CleanError :=
  if i.rf_role.isSome ∧ ¬ i.is_wireless then some (.validation .rf_role) else none

/-- `if self.rf_channel and not self.is_wireless: raise ...`. -/
def chkRfChannel (i : Interface) : Option CleanError :=
  if i.rf_channel.isSome ∧ ¬ i.is_wireless then some (.validation .rf_channel) else none

/-- `if self.rf_channel_width and not self.is_wireless: raise ...`
(integer truthiness: zero is falsy). -/
def chkRfChannelWidth (i : Interface) : Option CleanError :=
  if i.rf_channel_width.getD 0 ≠ 0 ∧ ¬ i.is_wireless
  then some (.validation .rf_channel_width) else none

/-- `if self.untagged_vlan and self.untagged_vlan.site not in
[self.device.site, None]: raise ValidationError({'untagged_vlan': ...})`. -/
def chkUntaggedVlan (i : Interface) : Option CleanError :=
  match i.untagged_vlan with
  | some v =>
    if v.site ≠ i.device.site ∧ v.site ≠ none then some (.validation .untagged_vlan)
    else none
  | none => none

/-- The checks of `Interface.clean` in source order; the first entry is
`super().clean()`, which resolves to `LinkTermination.clean`. -/
def checks (i : Interface) : List (Option CleanError) :=
  [ LinkTermination.chk i.mark_connected i.cable,
    chkVirtualCable i,
    chkVirtualMark i,
    chkParentDevice i,
    chkSelfParent i,
    chkPhysicalParent i,
    chkLagDevice i,
    chkVirtualLag i,
    chkSelfLag i,
    chkRfRole i,
    chkRfChannel i,
    chkRfChannelWidth i,
    chkUntaggedVlan i ]

/-- Embedding of `Interface.clean`. -/
def clean (i : Interface) : Except CleanError Unit :=
  firstErr (checks i)

/-- Embedding of the `Interface._occupied` property:
`super()._occupied or bool(self.wireless_link_id)`. -/
def occupied (i : Interface) : Bool :=
  LinkTermination.occupied i.mark_connected i.cable || i.wireless_link.isSome

end Interface

/-- Embedding of `BaseInterface.save` (the VLAN-normalization part of
the claims; `super().save()` persists the row, assigning `newPk` to a
previously unsaved instance):
`if not self.mode: self.untagged_vlan = None`, then
`if self.pk and self.mode != InterfaceModeChoices.MODE_TAGGED:
self.tagged_vlans.clear()`. -/
def BaseInterface.save (i : Interface) (newPk : Nat) : Interface :=
  let i1 := if i.mode = none then { i with untagged_vlan := none } else i
  let i2 :=
    if i1.pk.isSome = true ∧ i1.mode ≠ some MODE_TAGGED then { i1 with tagged_vlans := [] }
    else i1
  { i2 with pk := some (i2.pk.getD newPk) }

/-
Pass-through ports: `FrontPort` and `RearPort`.
-/

/-- Modelled from the spec: `REARPORT_POSITIONS_MIN` lives in
`dcim.constants`, outside `src/`; the claims' invariant that a front
port's position is "between 1 and its rear port's positions" fixes the
minimum at 1. -/
def REARPORT_POSITIONS_MIN : Nat := 1

/-- Modelled from the spec: `REARPORT_POSITIONS_MAX` lives in
`dcim.constants`, outside `src/`; the bound plays no role in the
claims beyond being an upper validator, modelled as 1024. -/
def REARPORT_POSITIONS_MAX : Nat := 1024

/-- The attributes of a `RearPort` row used by the pass-through-port
validation. -/
structure RearPortRec where
  pk : Nat
  device : Device
  mark_connected : Bool
  cable : Option Nat
  positions : Nat
deriving DecidableEq, Repr

/-- The attributes of a `FrontPort` row used by the pass-through-port
validation; `rear_port` embeds the referenced `RearPort` row. -/
structure FrontPortRec where
  pk : Nat
  device : Device
  mark_connected : Bool
  cable : Option Nat
  rear_port : RearPortRec
  rear_port_position : Nat
deriving DecidableEq, Repr

namespace FrontPort

/-- `if self.rear_port.device != self.device: raise ValidationError({"rear_port": ...})`. -/
def chkRearDevice (fp : FrontPortRec) : Option CleanError :=
  if fp.rear_port.device ≠ fp.device then some (.validation .rear_port) else none

/-- `if self.rear_port_position > self.rear_port.positions: raise
ValidationError({"rear_port_position": ...})`. -/
def chkPosition (fp : FrontPortRec) : Option CleanError :=
  if fp.rear_port.positions < fp.rear_port_position
  then some (.validation .rear_port_position) else none

/-- Embedding of `FrontPort.clean`. -/
def clean (fp : FrontPortRec) : Except CleanError Unit :=
  firstErr [LinkTermination.chk fp.mark_connected fp.cable, chkRearDevice fp, chkPosition fp]

/-- The `MinValueValidator(REARPORT_POSITIONS_MIN)` /
`MaxValueValidator(REARPORT_POSITIONS_MAX)` pair on
`rear_port_position`, run by the framework's `full_clean` before
`clean`. -/
def chkPositionValidators (fp : FrontPortRec) : Option CleanError :=
  if fp.rear_port_position < REARPORT_POSITIONS_MIN ∨
     REARPORT_POSITIONS_MAX < fp.rear_port_position
  then some (.validation .rear_port_position) else none

/-- The framework's `full_clean`: field validators, then `clean()`. -/
def full_clean (fp : FrontPortRec) : Except CleanError Unit :=
  firstErr [chkPositionValidators fp,
    LinkTermination.chk fp.mark_connected fp.cable, chkRearDevice fp, chkPosition fp]

end FrontPort

namespace RearPort

/-- `frontport_count = self.frontports.count()`: the front ports whose
`rear_port` FK references this rear port. -/
def frontportCount (frontports : List FrontPortRec) (rp : RearPortRec) : Nat :=
  (frontports.filter (fun f => f.rear_port.pk = rp.pk)).length

/-- `if self.positions < frontport_count: raise ValidationError({"positions": ...})`. -/
def chkPositions (frontports : List FrontPortRec) (rp : RearPortRec) : Option CleanError :=
  if rp.positions < frontportCount frontports rp then some (.validation .positions) else none

/-- Embedding of `RearPort.clean`; the visible `FrontPort` rows are
passed explicitly. -/
def clean (frontports : List FrontPortRec) (rp : RearPortRec) : Except CleanError Unit :=
  firstErr [LinkTermination.chk rp.mark_connected rp.cable, chkPositions frontports rp]

end RearPort

/-
Helper shape lemmas about the individual checks.
-/

theorem LinkTermination.chk_shape (mc : Bool) (cable : Option Nat) :
    LinkTermination.chk mc cable = none ∨
    LinkTermination.chk mc cable = some (.validation .mark_connected) := by
  unfold LinkTermination.chk
  split <;> simp

theorem LinkTermination.chk_eq_none_iff (mc : Bool) (cable : Option Nat) :
    LinkTermination.chk mc cable = none ↔ ¬(mc = true ∧ cable ≠ none) := by
  unfold LinkTermination.chk
  cases mc <;> rcases cable with _ | c <;> simp

theorem PowerPort.chkDraw_shape (p : PowerPortRec) :
    PowerPort.chkDraw p = none ∨
    PowerPort.chkDraw p = some (.validation .allocated_draw) := by
  cases hm : p.maximum_draw with
  | none => simp [PowerPort.chkDraw, hm]
  | some m =>
    cases ha : p.allocated_draw with
    | none => simp [PowerPort.chkDraw, hm, ha]
    | some a =>
      simp only [PowerPort.chkDraw, hm, ha]
      by_cases hlt : m < a <;> simp [hlt]

theorem PowerPort.chkDraw_eq_some_iff (p : PowerPortRec) :
    PowerPort.chkDraw p = some (.validation .allocated_draw) ↔
      ∃ m a, p.maximum_draw = some m ∧ p.allocated_draw = some a ∧ m < a := by
  cases hm : p.maximum_draw with
  | none => simp [PowerPort.chkDraw, hm]
  | some m =>
    cases ha : p.allocated_draw with
    | none => simp [PowerPort.chkDraw, hm, ha]
    | some a =>
      simp only [PowerPort.chkDraw, hm, ha]
      by_cases hlt : m < a <;> simp [hlt]

/-- C9: `LinkTermination.clean` raises exactly when `mark_connected`
is set while a cable is attached, so a validated link termination has
at most one of the two; `_occupied` is `mark_connected` or a cable,
and for `Interface` additionally a wireless link. -/
theorem link_termination_occupancy_spec (mc : Bool) (cable : Option Nat) (i : Interface) :
    (LinkTermination.clean mc cable = .error (.validation .mark_connected) ↔
      (mc = true ∧ cable ≠ none)) ∧
    (LinkTermination.clean mc cable = .ok () ↔ ¬(mc = true ∧ cable ≠ none)) ∧
    (LinkTermination.occupied mc cable = true ↔ (mc = true ∨ cable ≠ none)) ∧
    (Interface.occupied i = true ↔
      (i.mark_connected = true ∨ i.cable ≠ none ∨ i.wireless_link ≠ none)) := by
  refine ⟨?_, ?_, ?_, ?_⟩
  · cases mc <;> rcases cable with _ | c <;>
      simp [LinkTermination.clean, LinkTermination.chk, firstErr]
  · cases mc <;> rcases cable with _ | c <;>
      simp [LinkTermination.clean, LinkTermination.chk, firstErr]
  · unfold LinkTermination.occupied
    cases mc <;> simp [Option.isSome_iff_ne_none]
  · unfold Interface.occupied LinkTermination.occupied
    cases hmc : i.mark_connected <;> simp [Option.isSome_iff_ne_none]

/-- C4: `PowerPort.clean` rejects `allocated_draw > maximum_draw`
exactly when both are set, and a validated power port satisfies
allocated ≤ maximum. -/
theorem power_port_draw_validation (p : PowerPortRec) :
    (PowerPort.clean p = .error (.validation .allocated_draw) →
      ∃ m a, p.maximum_draw = some m ∧ p.allocated_draw = some a ∧ m < a) ∧
    (∀ m a, p.maximum_draw = some m → p.allocated_draw = some a → m < a →
      ∃ f, PowerPort.clean p = .error (.validation f)) ∧
    (PowerPort.clean p = .ok () →
      ∀ m a, p.maximum_draw = some m → p.allocated_draw = some a → a ≤ m) := by
  refine ⟨?_, ?_, ?_⟩
  · intro h
    have hmem := firstErr_error_mem _ _ h
    simp only [List.mem_cons, List.not_mem_nil, or_false] at hmem
    rcases hmem with hmem | hmem
    · rcases LinkTermination.chk_shape p.mark_connected p.cable with hs | hs <;>
        rw [hs] at hmem <;> simp_all
    · exact (PowerPort.chkDraw_eq_some_iff p).mp hmem.symm
  · intro m a hm ha hlt
    have hchk : PowerPort.chkDraw p = some (.validation .allocated_draw) :=
      (PowerPort.chkDraw_eq_some_iff p).mpr ⟨m, a, hm, ha, hlt⟩
    rcases hs : LinkTermination.chk p.mark_connected p.cable with _ | e1
    · refine ⟨.allocated_draw, ?_⟩
      show firstErr [LinkTermination.chk p.mark_connected p.cable, PowerPort.chkDraw p] =
        Except.error (CleanError.validation .allocated_draw)
      rw [hs, hchk]
      rfl
    · rcases LinkTermination.chk_shape p.mark_connected p.cable with hs2 | hs2
      · rw [hs] at hs2
        exact absurd hs2 (by simp)
      · refine ⟨.mark_connected, ?_⟩
        show firstErr [LinkTermination.chk p.mark_connected p.cable, PowerPort.chkDraw p] =
          Except.error (CleanError.validation .mark_connected)
        rw [hs2]
        rfl
  · intro hok m a hm ha
    have hall := (firstErr_ok_iff _).mp hok
    have hdraw : PowerPort.chkDraw p = none := by
      apply hall
      simp [PowerPort.clean] at hok ⊢
    by_contra hlt
    have hmem : PowerPort.chkDraw p = some (.validation .allocated_draw) :=
      (PowerPort.chkDraw_eq_some_iff p).mpr ⟨m, a, hm, ha, by omega⟩
    rw [hdraw] at hmem
    exact Option.noConfusion hmem

/-- Witness for C4 at a concrete over-allocated power port. -/
theorem power_port_draw_validation_witness :
    ∃ f, PowerPort.clean ⟨1, false, none, some 3, some 5, none⟩ = .error (.validation f) :=
  (power_port_draw_validation ⟨1, false, none, some 3, some 5, none⟩).2.1 3 5 rfl rfl
    (by decide)

theorem FrontPort.chkRearDevice_shape (fp : FrontPortRec) :
    FrontPort.chkRearDevice fp = none ∨
    FrontPort.chkRearDevice fp = some (.validation .rear_port) := by
  unfold FrontPort.chkRearDevice
  split <;> simp

theorem FrontPort.chkPosition_shape (fp : FrontPortRec) :
    FrontPort.chkPosition fp = none ∨
    FrontPort.chkPosition fp = some (.validation .rear_port_position) := by
  unfold FrontPort.chkPosition
  split <;> simp

/-- C5: `FrontPort.clean` rejects a rear port on a different device;
with the rear port on the same device that check passes, so a
validated front port is on the same device as its rear port. -/
theorem front_port_rear_device_validation (fp : FrontPortRec) :
    (fp.rear_port.device ≠ fp.device → ∃ f, FrontPort.clean fp = .error (.validation f)) ∧
    (fp.rear_port.device = fp.device →
      FrontPort.clean fp ≠ .error (.validation .rear_port)) ∧
    (FrontPort.clean fp = .ok () → fp.rear_port.device = fp.device) := by
  refine ⟨?_, ?_, ?_⟩
  · intro hne
    have hchk : FrontPort.chkRearDevice fp = some (.validation .rear_port) := by
      unfold FrontPort.chkRearDevice
      simp [hne]
    have hmem : some (CleanError.validation .rear_port) ∈
        [LinkTermination.chk fp.mark_connected fp.cable,
          FrontPort.chkRearDevice fp, FrontPort.chkPosition fp] := by
      simp [hchk]
    obtain ⟨e, he⟩ := firstErr_exists_error _ _ hmem
    have hemem := firstErr_error_mem _ _ he
    simp only [List.mem_cons, List.not_mem_nil, or_false] at hemem
    rcases hemem with h1 | h1 | h1
    · rcases LinkTermination.chk_shape fp.mark_connected fp.cable with hs | hs <;>
        rw [hs] at h1
      · exact absurd h1 (by simp)
      · exact ⟨.mark_connected, by rw [Option.some.injEq] at h1; rw [← h1]; exact he⟩
    · rw [hchk] at h1
      exact ⟨.rear_port, by rw [Option.some.injEq] at h1; rw [← h1]; exact he⟩
    · rcases FrontPort.chkPosition_shape fp with hs | hs <;> rw [hs] at h1
      · exact absurd h1 (by simp)
      · exact ⟨.rear_port_position, by rw [Option.some.injEq] at h1; rw [← h1]; exact he⟩
  · intro heq hclean
    have hmem := firstErr_error_mem _ _ hclean
    simp only [List.mem_cons, List.not_mem_nil, or_false] at hmem
    rcases hmem with h1 | h1 | h1
    · rcases LinkTermination.chk_shape fp.mark_connected fp.cable with hs | hs <;>
        rw [hs] at h1 <;> simp at h1
    · unfold FrontPort.chkRearDevice at h1
      rw [if_neg (by simp [heq])] at h1
      exact Option.noConfusion h1
    · rcases FrontPort.chkPosition_shape fp with hs | hs <;> rw [hs] at h1 <;> simp at h1
  · intro hok
    have hall := (firstErr_ok_iff _).mp hok
    have h1 : FrontPort.chkRearDevice fp = none := by
      apply hall
      simp
    unfold FrontPort.chkRearDevice at h1
    by_contra hne
    rw [if_pos hne] at h1
    exact Option.noConfusion h1

/-- Witness for C5 at a front port whose rear port sits on another
device. -/
theorem front_port_rear_device_validation_witness :
    ∃ f, FrontPort.clean
      ⟨5, ⟨1, none, none⟩, false, none, ⟨7, ⟨2, none, none⟩, false, none, 4⟩, 2⟩ =
      .error (.validation f) :=
  (front_port_rear_device_validation
    ⟨5, ⟨1, none, none⟩, false, none, ⟨7, ⟨2, none, none⟩, false, none, 4⟩, 2⟩).1
    (by decide)

/-- C8: the front/rear position mapping is validated from both sides:
a front-port position beyond the rear port's positions and a positions
count below the number of mapped front ports are both rejected, and
validated states satisfy both bounds (the lower bound 1 coming from
the field validator run by `full_clean`). -/
theorem port_position_mapping_invariant (fp : FrontPortRec) (fps : List FrontPortRec)
    (rp : RearPortRec) :
    (fp.rear_port.positions < fp.rear_port_position →
      ∃ f, FrontPort.clean fp = .error (.validation f)) ∧
    (rp.positions < RearPort.frontportCount fps rp →
      ∃ f, RearPort.clean fps rp = .error (.validation f)) ∧
    (FrontPort.full_clean fp = .ok () →
      1 ≤ fp.rear_port_position ∧ fp.rear_port_position ≤ fp.rear_port.positions) ∧
    (RearPort.clean fps rp = .ok () → RearPort.frontportCount fps rp ≤ rp.positions) := by
  refine ⟨?_, ?_, ?_, ?_⟩
  · intro hgt
    have hchk : FrontPort.chkPosition fp = some (.validation .rear_port_position) := by
      unfold FrontPort.chkPosition
      simp [hgt]
    have hmem : some (CleanError.validation .rear_port_position) ∈
        [LinkTermination.chk fp.mark_connected fp.cable,
          FrontPort.chkRearDevice fp, FrontPort.chkPosition fp] := by
      simp [hchk]
    obtain ⟨e, he⟩ := firstErr_exists_error _ _ hmem
    have hemem := firstErr_error_mem _ _ he
    simp only [List.mem_cons, List.not_mem_nil, or_false] at hemem
    rcases hemem with h1 | h1 | h1
    · rcases LinkTermination.chk_shape fp.mark_connected fp.cable with hs | hs <;>
        rw [hs] at h1
      · exact absurd h1 (by simp)
      · exact ⟨.mark_connected, by rw [Option.some.injEq] at h1; rw [← h1]; exact he⟩
    · rcases FrontPort.chkRearDevice_shape fp with hs | hs <;> rw [hs] at h1
      · exact absurd h1 (by simp)
      · exact ⟨.rear_port, by rw [Option.some.injEq] at h1; rw [← h1]; exact he⟩
    · rw [hchk] at h1
      exact ⟨.rear_port_position, by rw [Option.some.injEq] at h1; rw [← h1]; exact he⟩
  · intro hgt
    have hchk : RearPort.chkPositions fps rp = some (.validation .positions) := by
      unfold RearPort.chkPositions
      simp [hgt]
    rcases hs : LinkTermination.chk rp.mark_connected rp.cable with _ | e1
    · refine ⟨.positions, ?_⟩
      show firstErr [LinkTermination.chk rp.mark_connected rp.cable,
        RearPort.chkPositions fps rp] = Except.error (CleanError.validation .positions)
      rw [hs, hchk]
      rfl
    · rcases LinkTermination.chk_shape rp.mark_connected rp.cable with hs2 | hs2
      · rw [hs] at hs2
        exact absurd hs2 (by simp)
      · refine ⟨.mark_connected, ?_⟩
        show firstErr [LinkTermination.chk rp.mark_connected rp.cable,
          RearPort.chkPositions fps rp] = Except.error (CleanError.validation .mark_connected)
        rw [hs2]
        rfl
  · intro hok
    have hall := (firstErr_ok_iff _).mp hok
    have hv : FrontPort.chkPositionValidators fp = none := by
      apply hall
      simp
    have hp : FrontPort.chkPosition fp = none := by
      apply hall
      simp
    constructor
    · unfold FrontPort.chkPositionValidators at hv
      by_contra hlt
      rw [if_pos (Or.inl (by
        unfold REARPORT_POSITIONS_MIN
        omega))] at hv
      exact Option.noConfusion hv
    · unfold FrontPort.chkPosition at hp
      by_contra hlt
      rw [if_pos (by omega)] at hp
      exact Option.noConfusion hp
  · intro hok
    have hall := (firstErr_ok_iff _).mp hok
    have hp : RearPort.chkPositions fps rp = none := by
      apply hall
      simp
    unfold RearPort.chkPositions at hp
    by_contra hlt
    rw [if_pos (by omega)] at hp
    exact Option.noConfusion hp

/-- Witness for C8 at a concrete validated front/rear port pair. -/
theorem port_position_mapping_invariant_witness :
    1 ≤ (1 : Nat) ∧ (1 : Nat) ≤ 2 :=
  (port_position_mapping_invariant
    ⟨5, ⟨1, none, none⟩, false, none, ⟨7, ⟨1, none, none⟩, false, none, 2⟩, 1⟩
    [] ⟨7, ⟨1, none, none⟩, false, none, 2⟩).2.2.1 rfl

theorem BaseInterface.save_eq (i : Interface) (newPk : Nat) :
    BaseInterface.save i newPk =
      { i with
        pk := some (i.pk.getD newPk),
        untagged_vlan := if i.mode = none then none else i.untagged_vlan,
        tagged_vlans :=
          if i.pk.isSome = true ∧ i.mode ≠ some MODE_TAGGED then [] else i.tagged_vlans } := by
  unfold BaseInterface.save
  by_cases h1 : i.mode = none <;> by_cases hpk : i.pk.isSome = true <;>
    by_cases hmt : i.mode = some MODE_TAGGED <;>
    simp_all

/-- C10: `BaseInterface.save` clears the untagged VLAN when the mode
is unset and clears the tagged VLANs of a persisted interface whose
mode is not "tagged"; hence after a save (given the many-to-many fact
that an unsaved row has no tagged VLANs) an interface without an
802.1Q mode has no untagged VLAN and an interface not in tagged mode
has no tagged VLANs. -/
theorem base_interface_save_normalizes_vlans (i : Interface) (newPk : Nat) :
    ((BaseInterface.save i newPk).mode = i.mode) ∧
    (i.mode = none → (BaseInterface.save i newPk).untagged_vlan = none) ∧
    (i.pk.isSome = true → i.mode ≠ some MODE_TAGGED →
      (BaseInterface.save i newPk).tagged_vlans = []) ∧
    ((i.pk = none → i.tagged_vlans = []) →
      ((BaseInterface.save i newPk).mode = none →
        (BaseInterface.save i newPk).untagged_vlan = none) ∧
      ((BaseInterface.save i newPk).mode ≠ some MODE_TAGGED →
        (BaseInterface.save i newPk).tagged_vlans = [])) := by
  rw [BaseInterface.save_eq]
  refine ⟨rfl, ?_, ?_, ?_⟩
  · intro h1
    simp [h1]
  · intro hpk hm
    simp [hpk, hm]
  · intro hm2m
    constructor
    · intro h1
      simp only at h1
      simp [h1]
    · intro hmode
      simp only at hmode
      cases hp : i.pk with
      | some k => simp [hp, hmode]
      | none => simp [hp, hmode, hm2m hp]

/-- Witness for C10: saving a fresh interface in access mode with a
stray tagged-VLAN-free state yields the normalized invariants. -/
theorem base_interface_save_normalizes_vlans_witness :
    (BaseInterface.save
      ⟨none, ⟨1, none, none⟩, .physical, none, none, false, none, none,
        none, some ⟨9, none⟩, [], none, none, none⟩ 42).untagged_vlan = none :=
  (base_interface_save_normalizes_vlans
    ⟨none, ⟨1, none, none⟩, .physical, none, none, false, none, none,
      none, some ⟨9, none⟩, [], none, none, none⟩ 42).2.1 rfl

/-- C3: counter-evidence.  An interface on device 1 whose parent
interface sits on device 2, both devices members of the same virtual
chassis 100: the claim says the assignment passes the parent check,
but `clean` escapes with `AttributeError` because the code reads
`self.parent.virtual_chassis`, an attribute `Interface` does not have
(upstream compares against `self.device.virtual_chassis`). -/
theorem interface_parent_same_chassis_rejected :
    (Device.mk 1 none (some 100)).virtual_chassis =
      (Device.mk 2 none (some 100)).virtual_chassis ∧
    Interface.clean
      ⟨some 11, ⟨1, none, some 100⟩, .virt, some ⟨10, ⟨2, none, some 100⟩⟩, none,
        false, none, none, none, none, [], none, none, none⟩ =
      .error .attributeError :=
  ⟨rfl, rfl⟩

/-- C7: counter-evidence.  `Interface.clean` can terminate with an
exception that is not a `ValidationError`: at this input (parent on a
different device, device in a virtual chassis) it raises
`AttributeError` from the nonexistent `self.parent.virtual_chassis`
access. -/
theorem interface_clean_raises_attribute_error :
    Interface.clean
      ⟨some 21, ⟨3, none, some 7⟩, .virt, some ⟨20, ⟨4, none, some 7⟩⟩, none,
        false, none, none, none, none, [], none, none, none⟩ =
      .error .attributeError ∧
    ∀ f : Field, (CleanError.attributeError : CleanError) ≠ .validation f := by
  refine ⟨rfl, ?_⟩
  intro f
  simp

/-- C1: `trace` is empty exactly for an endpoint without a cable path;
otherwise its three-tuples flatten to the endpoint followed by the
path nodes, `None`-padded to a multiple of three and terminated by the
path's destination; the first tuple starts at the endpoint and the
last tuple ends at the destination. -/
theorem trace_groups_path_into_triples {β : Type} (self : β) (cp : CablePath β) :
    PathEndpoint.trace self (none : Option (CablePath β)) = [] ∧
    PathEndpoint.trace self (some cp) ≠ [] ∧
    flat3 (PathEndpoint.trace self (some cp)) =
      (some self :: cp.get_path.map some)
        ++ List.replicate (padCount (cp.get_path.length + 1)) none
        ++ [cp.destination] ∧
    (∀ t rest, PathEndpoint.trace self (some cp) = t :: rest → t.1 = some self) ∧
    (∀ t init, PathEndpoint.trace self (some cp) = init ++ [t] →
      t.2.2 = cp.destination) := by
  have htr : PathEndpoint.trace self (some cp) =
      groupTriples (((some self :: cp.get_path.map some)
        ++ List.replicate (padCount (cp.get_path.length + 1)) none)
        ++ [cp.destination]) := by
    simp [PathEndpoint.trace]
  have hlen : (((some self :: cp.get_path.map some)
      ++ List.replicate (padCount (cp.get_path.length + 1)) none)
      ++ [cp.destination]).length % 3 = 0 := by
    simp [padCount]
    omega
  have hflat : flat3 (PathEndpoint.trace self (some cp)) =
      ((some self :: cp.get_path.map some)
        ++ List.replicate (padCount (cp.get_path.length + 1)) none)
        ++ [cp.destination] := by
    rw [htr]
    exact flat3_groupTriples _ hlen
  refine ⟨rfl, ?_, ?_, ?_, ?_⟩
  · intro hnil
    rw [hnil] at hflat
    have h0 := congrArg List.length hflat
    simp [flat3] at h0
  · rw [hflat]
  · intro t rest ht
    obtain ⟨a, b, c⟩ := t
    rw [ht] at hflat
    have hcons : a :: b :: c :: flat3 rest =
        some self :: (cp.get_path.map some
          ++ List.replicate (padCount (cp.get_path.length + 1)) none
          ++ [cp.destination]) :=
      calc a :: b :: c :: flat3 rest = flat3 ((a, b, c) :: rest) := by simp [flat3]
        _ = some self :: cp.get_path.map some
              ++ List.replicate (padCount (cp.get_path.length + 1)) none
              ++ [cp.destination] := hflat
        _ = some self :: (cp.get_path.map some
              ++ List.replicate (padCount (cp.get_path.length + 1)) none
              ++ [cp.destination]) := by simp
    exact ((List.cons.injEq _ _ _ _).mp hcons).1
  · intro t init ht
    obtain ⟨a, b, c⟩ := t
    rw [ht] at hflat
    have hlast : (flat3 (init ++ [(a, b, c)])).getLast? = some c := by
      rw [flat3_append]
      have hsplit : flat3 init ++ flat3 [(a, b, c)] =
          (flat3 init ++ [a, b]) ++ [c] := by
        simp [flat3]
      rw [hsplit, List.getLast?_concat]
    rw [hflat, List.getLast?_concat] at hlast
    exact ((Option.some.injEq _ _).mp hlast.symm)

/-- Witness for C1 at a concrete one-hop path: an endpoint whose
cable path has an empty node list and no destination groups into a
single padded tuple. -/
theorem trace_groups_path_into_triples_witness :
    ((some 0, none, none) : Option Nat × Option Nat × Option Nat).1 = some 0 ∧
    ((some 0, none, none) : Option Nat × Option Nat × Option Nat).2.2 = none :=
  ⟨(trace_groups_path_into_triples (0 : Nat) ⟨[], none⟩).2.2.2.1
      (some 0, none, none) [] rfl,
    (trace_groups_path_into_triples (0 : Nat) ⟨[], none⟩).2.2.2.2
      (some 0, none, none) [] rfl⟩

theorem Interface.chkUntaggedVlan_eq_some_iff (i : Interface) :
    Interface.chkUntaggedVlan i = some (.validation .untagged_vlan) ↔
      ∃ v, i.untagged_vlan = some v ∧ v.site ≠ i.device.site ∧ v.site ≠ none := by
  cases hv : i.untagged_vlan with
  | none => simp [Interface.chkUntaggedVlan, hv]
  | some v =>
    simp only [Interface.chkUntaggedVlan, hv]
    by_cases hc : v.site ≠ i.device.site ∧ v.site ≠ none
    · simp only [if_pos hc, true_iff, Option.some.injEq]
      exact ⟨v, rfl, hc.1, hc.2⟩
    · rw [if_neg hc]
      constructor
      · intro h
        exact Option.noConfusion h
      · rintro ⟨v', hv', h1, h2⟩
        cases hv'
        exact absurd ⟨h1, h2⟩ hc

theorem Interface.checks_shape (i : Interface) :
    ∀ o ∈ Interface.checks i,
      o = none ∨ (∃ f, o = some (.validation f)) ∨
      (o = some .attributeError ∧ ∃ p, i.parent = some p ∧ p.device ≠ i.device ∧
        i.device.virtual_chassis ≠ none) := by
  intro o ho
  simp only [Interface.checks, List.mem_cons, List.not_mem_nil, or_false] at ho
  rcases ho with h | h | h | h | h | h | h | h | h | h | h | h | h
  · subst h
    rcases LinkTermination.chk_shape i.mark_connected i.cable with hs | hs <;> rw [hs]
    · exact Or.inl rfl
    · exact Or.inr (Or.inl ⟨.mark_connected, rfl⟩)
  · subst h
    unfold Interface.chkVirtualCable
    split
    · exact Or.inr (Or.inl ⟨.iface_type, rfl⟩)
    · exact Or.inl rfl
  · subst h
    unfold Interface.chkVirtualMark
    split
    · exact Or.inr (Or.inl ⟨.mark_connected, rfl⟩)
    · exact Or.inl rfl
  · subst h
    cases hp : i.parent with
    | none => simp [Interface.chkParentDevice, hp]
    | some p =>
      simp only [Interface.chkParentDevice, hp]
      by_cases hne : p.device ≠ i.device
      · by_cases hvc : i.device.virtual_chassis = none
        · rw [if_pos hne, if_pos hvc]
          exact Or.inr (Or.inl ⟨.parent, rfl⟩)
        · rw [if_pos hne, if_neg hvc]
          exact Or.inr (Or.inr ⟨rfl, p, rfl, hne, hvc⟩)
      · rw [if_neg hne]
        exact Or.inl rfl
  · subst h
    unfold Interface.chkSelfParent
    split
    · split
      · exact Or.inr (Or.inl ⟨.parent, rfl⟩)
      · exact Or.inl rfl
    · exact Or.inl rfl
  · subst h
    unfold Interface.chkPhysicalParent
    split
    · exact Or.inr (Or.inl ⟨.parent, rfl⟩)
    · exact Or.inl rfl
  · subst h
    unfold Interface.chkLagDevice
    split
    · split
      · split
        · exact Or.inr (Or.inl ⟨.lag, rfl⟩)
        · split
          · exact Or.inr (Or.inl ⟨.lag, rfl⟩)
          · exact Or.inl rfl
      · exact Or.inl rfl
    · exact Or.inl rfl
  · subst h
    unfold Interface.chkVirtualLag
    split
    · exact Or.inr (Or.inl ⟨.lag, rfl⟩)
    · exact Or.inl rfl
  · subst h
    unfold Interface.chkSelfLag
    split
    · split
      · exact Or.inr (Or.inl ⟨.lag, rfl⟩)
      · exact Or.inl rfl
    · exact Or.inl rfl
  · subst h
    unfold Interface.chkRfRole
    split
    · exact Or.inr (Or.inl ⟨.rf_role, rfl⟩)
    · exact Or.inl rfl
  · subst h
    unfold Interface.chkRfChannel
    split
    · exact Or.inr (Or.inl ⟨.rf_channel, rfl⟩)
    · exact Or.inl rfl
  · subst h
    unfold Interface.chkRfChannelWidth
    split
    · exact Or.inr (Or.inl ⟨.rf_channel_width, rfl⟩)
    · exact Or.inl rfl
  · subst h
    unfold Interface.chkUntaggedVlan
    split
    · split
      · exact Or.inr (Or.inl ⟨.untagged_vlan, rfl⟩)
      · exact Or.inl rfl
    · exact Or.inl rfl

theorem Interface.untagged_error_only (i : Interface)
    (h : some (CleanError.validation .untagged_vlan) ∈ Interface.checks i) :
    Interface.chkUntaggedVlan i = some (.validation .untagged_vlan) := by
  simp only [Interface.checks, List.mem_cons, List.not_mem_nil, or_false] at h
  rcases h with h | h | h | h | h | h | h | h | h | h | h | h | h
  · unfold LinkTermination.chk at h
    split at h <;> simp at h
  · unfold Interface.chkVirtualCable at h
    split at h <;> simp at h
  · unfold Interface.chkVirtualMark at h
    split at h <;> simp at h
  · unfold Interface.chkParentDevice at h
    split at h <;> try split at h
    all_goals try split at h
    all_goals simp at h
  · unfold Interface.chkSelfParent at h
    split at h <;> try split at h
    all_goals simp at h
  · unfold Interface.chkPhysicalParent at h
    split at h <;> simp at h
  · unfold Interface.chkLagDevice at h
    split at h <;> try split at h
    all_goals try split at h
    all_goals try split at h
    all_goals simp at h
  · unfold Interface.chkVirtualLag at h
    split at h <;> simp at h
  · unfold Interface.chkSelfLag at h
    split at h <;> try split at h
    all_goals simp at h
  · unfold Interface.chkRfRole at h
    split at h <;> simp at h
  · unfold Interface.chkRfChannel at h
    split at h <;> simp at h
  · unfold Interface.chkRfChannelWidth at h
    split at h <;> simp at h
  · exact h.symm

/-- C6: `Interface.clean` rejects an untagged VLAN whose site is
neither the device's site nor global; a local-or-global untagged VLAN
never triggers that error.  The nested hypothesis restricting the
parent assignment keeps the run clear of the parent-check defect
(claims C3/C7), which raises `AttributeError` rather than a
`ValidationError` before the VLAN check is reached. -/
theorem interface_untagged_vlan_site_validation (i : Interface) :
    (∀ v, i.untagged_vlan = some v → v.site ≠ i.device.site → v.site ≠ none →
      Interface.clean i ≠ .ok () ∧
      ((∀ p, i.parent = some p → p.device ≠ i.device → i.device.virtual_chassis = none) →
        ∃ f, Interface.clean i = .error (.validation f))) ∧
    (∀ v, i.untagged_vlan = some v → (v.site = i.device.site ∨ v.site = none) →
      Interface.clean i ≠ .error (.validation .untagged_vlan)) ∧
    (Interface.clean i = .error (.validation .untagged_vlan) →
      ∃ v, i.untagged_vlan = some v ∧ v.site ≠ i.device.site ∧ v.site ≠ none) := by
  refine ⟨?_, ?_, ?_⟩
  · intro v hv hs1 hs2
    have hchk : Interface.chkUntaggedVlan i = some (.validation .untagged_vlan) :=
      (Interface.chkUntaggedVlan_eq_some_iff i).mpr ⟨v, hv, hs1, hs2⟩
    have hmem : some (CleanError.validation .untagged_vlan) ∈ Interface.checks i := by
      simp [Interface.checks, hchk]
    constructor
    · exact firstErr_ne_ok _ _ hmem
    · intro hp
      obtain ⟨e, he⟩ := firstErr_exists_error _ _ hmem
      have hm2 := firstErr_error_mem _ _ he
      rcases Interface.checks_shape i (some e) hm2 with h0 | ⟨f, hf⟩ | ⟨hae, p, hpp, hpd, hvc⟩
      · exact absurd h0 (by simp)
      · rw [Option.some.injEq] at hf
        exact ⟨f, by rw [← hf]; exact he⟩
      · exact absurd (hp p hpp hpd) hvc
  · intro v hv hgood hclean
    have h1 := Interface.untagged_error_only i (firstErr_error_mem _ _ hclean)
    obtain ⟨v', hv', hne1, hne2⟩ := (Interface.chkUntaggedVlan_eq_some_iff i).mp h1
    rw [hv] at hv'
    cases hv'
    rcases hgood with hg | hg
    · exact hne1 hg
    · exact hne2 hg
  · intro hclean
    exact (Interface.chkUntaggedVlan_eq_some_iff i).mp
      (Interface.untagged_error_only i (firstErr_error_mem _ _ hclean))

/-- Witness for C6 at an interface on a site-3 device with an
untagged VLAN scoped to site 9. -/
theorem interface_untagged_vlan_site_validation_witness :
    ∃ f, Interface.clean
      ⟨some 31, ⟨6, some 3, none⟩, .physical, none, none, false, none, none,
        none, some ⟨5, some 9⟩, [], none, none, none⟩ =
      .error (.validation f) :=
  ((interface_untagged_vlan_site_validation
    ⟨some 31, ⟨6, some 3, none⟩, .physical, none, none, false, none, none,
      none, some ⟨5, some 9⟩, [], none, none, none⟩).1
    ⟨5, some 9⟩ rfl (by decide) (by decide)).2
    (fun p hp _ => Option.noConfusion hp)

/-
C2: the power-draw aggregation, characterized against queryset-free
descriptions of the aggregated rows.
-/

/-- The ports counted by the aggregation: those whose cached link peer
is one of the child `PowerOutlet`s of the port with pk `selfPk`. -/
def isChildPeer (db : PowerDB) (selfPk : Nat) (p : PowerPortRec) : Prop :=
  ∃ o ∈ db.poweroutlets, o.power_port = some selfPk ∧ p.link_peer = some (.poweroutlet o.pk)

instance (db : PowerDB) (selfPk : Nat) (p : PowerPortRec) :
    Decidable (isChildPeer db selfPk p) := by
  unfold isChildPeer
  infer_instance

/-- The ports counted by the per-leg aggregation: the child outlet at
the far end additionally sits on feed leg `leg`. -/
def isChildPeerOnLeg (db : PowerDB) (selfPk : Nat) (leg : FeedLeg) (p : PowerPortRec) : Prop :=
  ∃ o ∈ db.poweroutlets, o.power_port = some selfPk ∧ o.feed_leg = some leg ∧
    p.link_peer = some (.poweroutlet o.pk)

instance (db : PowerDB) (selfPk : Nat) (leg : FeedLeg) (p : PowerPortRec) :
    Decidable (isChildPeerOnLeg db selfPk leg p) := by
  unfold isChildPeerOnLeg
  infer_instance

theorem sum_filterMap_filter {α : Type} (l : List α) (c : α → Bool) (g : α → Option Nat) :
    ((l.filter c).filterMap g).sum = (l.map fun p => if c p then (g p).getD 0 else 0).sum := by
  induction l with
  | nil => rfl
  | cons a rest ih =>
    cases hc : c a
    · simp [List.filter_cons, hc, ih]
    · cases hg : g a <;> simp [List.filter_cons, List.filterMap_cons, hc, hg, ih]

theorem map_if_congr {P : PowerPortRec → Prop} [DecidablePred P]
    (l : List PowerPortRec) (c : PowerPortRec → Bool)
    (h : ∀ p, c p = true ↔ P p) (f : PowerPortRec → Nat) :
    (l.map fun p => if c p then f p else 0) = l.map fun p => if P p then f p else 0 := by
  induction l with
  | nil => rfl
  | cons a rest ih =>
    rw [List.map_cons, List.map_cons, ih]
    by_cases hc : c a
    · rw [if_pos hc, if_pos ((h a).mp hc)]
    · rw [if_neg hc, if_neg fun hp => hc ((h a).mpr hp)]

theorem peerFilter_childOutlets_iff (db : PowerDB) (selfPk : Nat) (p : PowerPortRec) :
    peerFilter ((childOutlets db selfPk).map (·.pk)) p = true ↔ isChildPeer db selfPk p := by
  unfold peerFilter isChildPeer
  cases hl : p.link_peer with
  | none => simp
  | some peer =>
    cases peer with
    | powerfeed j => simp
    | poweroutlet j =>
      simp only [decide_eq_true_eq, List.mem_map, childOutlets, List.mem_filter,
        Option.some.injEq, PowerLinkPeer.poweroutlet.injEq]
      constructor
      · rintro ⟨o, ⟨ho, hpp⟩, hpk⟩
        exact ⟨o, ho, by simpa using hpp, hpk.symm⟩
      · rintro ⟨o, ho, hpp, hpk⟩
        exact ⟨o, ⟨ho, by simpa using hpp⟩, hpk.symm⟩

theorem peerFilter_legOutlets_iff (db : PowerDB) (selfPk : Nat) (leg : FeedLeg)
    (p : PowerPortRec) :
    peerFilter (((childOutlets db selfPk).filter fun o => o.feed_leg = some leg).map (·.pk))
        p = true ↔
      isChildPeerOnLeg db selfPk leg p := by
  unfold peerFilter isChildPeerOnLeg
  cases hl : p.link_peer with
  | none => simp
  | some peer =>
    cases peer with
    | powerfeed j => simp
    | poweroutlet j =>
      simp only [decide_eq_true_eq, List.mem_map, childOutlets, List.mem_filter,
        Option.some.injEq, PowerLinkPeer.poweroutlet.injEq, decide_eq_true_eq]
      constructor
      · rintro ⟨o, ⟨⟨ho, hpp⟩, hleg⟩, hpk⟩
        exact ⟨o, ho, by simpa using hpp, by simpa using hleg, hpk.symm⟩
      · rintro ⟨o, ho, hpp, hleg, hpk⟩
        exact ⟨o, ⟨⟨ho, by simpa using hpp⟩, by simpa using hleg⟩, hpk.symm⟩

theorem peerPhase_threePhase_iff (db : PowerDB) (peer : Option PowerLinkPeer)
    (hnd : (db.powerfeeds.map (·.pk)).Nodup) :
    peerPhase db peer = some PowerPhase.threePhase ↔
      ∃ fd ∈ db.powerfeeds, peer = some (.powerfeed fd.pk) ∧
        fd.phase = PowerPhase.threePhase := by
  cases peer with
  | none => simp [peerPhase]
  | some pl =>
    cases pl with
    | poweroutlet j => simp [peerPhase]
    | powerfeed j =>
      simp only [peerPhase]
      constructor
      · intro h
        obtain ⟨fd, hfind, hph⟩ := Option.map_eq_some'.mp h
        have hmem := List.mem_of_find?_eq_some hfind
        have hpred := List.find?_some hfind
        have hpk : fd.pk = j := by simpa using hpred
        exact ⟨fd, hmem, by rw [hpk], hph⟩
      · rintro ⟨fd, hmem, hpeer, hph⟩
        have hj : fd.pk = j := by
          have := (Option.some.injEq _ _).mp hpeer
          exact (PowerLinkPeer.powerfeed.injEq _ _).mp this.symm
        have hsome : (db.powerfeeds.find? fun f => f.pk = j).isSome := by
          rw [List.find?_isSome]
          exact ⟨fd, hmem, by simp [hj]⟩
        obtain ⟨fd', hfind⟩ := Option.isSome_iff_exists.mp hsome
        have hmem' := List.mem_of_find?_eq_some hfind
        have hpk' : fd'.pk = j := by simpa using List.find?_some hfind
        have heq : fd' = fd := List.inj_on_of_nodup_map hnd hmem' hmem (by rw [hpk', hj])
        rw [hfind, heq, Option.map_some', hph]

theorem get_power_draw_aggregated (db : PowerDB) (self : PowerPortRec)
    (h : self.allocated_draw = none ∧ self.maximum_draw = none) :
    PowerPort.get_power_draw db self =
      { allocated := sumDraw (drawingPorts db ((childOutlets db self.pk).map (·.pk)))
          (·.allocated_draw)
        maximum := sumDraw (drawingPorts db ((childOutlets db self.pk).map (·.pk)))
          (·.maximum_draw)
        outlet_count := ((childOutlets db self.pk).map (·.pk)).length
        legs :=
          if peerPhase db self.link_peer = some PowerPhase.threePhase then
            feedLegChoices.map fun leg =>
              { name := leg
                allocated := sumDraw (drawingPorts db
                    (((childOutlets db self.pk).filter
                      fun o => o.feed_leg = some leg).map (·.pk)))
                  (·.allocated_draw)
                maximum := sumDraw (drawingPorts db
                    (((childOutlets db self.pk).filter
                      fun o => o.feed_leg = some leg).map (·.pk)))
                  (·.maximum_draw)
                outlet_count := (((childOutlets db self.pk).filter
                    fun o => o.feed_leg = some leg).map (·.pk)).length }
          else [] } := by
  rw [PowerPort.get_power_draw, if_pos h]

theorem get_power_draw_administrative (db : PowerDB) (self : PowerPortRec)
    (h : ¬(self.allocated_draw = none ∧ self.maximum_draw = none)) :
    PowerPort.get_power_draw db self =
      { allocated := self.allocated_draw.getD 0
        maximum := self.maximum_draw.getD 0
        outlet_count := (childOutlets db self.pk).length
        legs := [] } := by
  rw [PowerPort.get_power_draw, if_neg h]

/-- C2: `get_power_draw` aggregates over child outlets exactly when
both draw fields are unset: the totals are the sums of the
(0-defaulted) draws of the power ports whose cached link peer is a
child outlet of this port, the outlet count is the number of child
outlets, and the per-leg breakdown is produced exactly when the port's
own link peer is a three-phase power feed; with either draw set
manually, the administrative values are returned with the outlet count
and no legs.  (Feed pks are assumed unique, as database primary keys
are.) -/
theorem power_draw_aggregation (db : PowerDB) (self : PowerPortRec)
    (hfeeds : (db.powerfeeds.map (·.pk)).Nodup) :
    (self.allocated_draw = none ∧ self.maximum_draw = none →
      (PowerPort.get_power_draw db self).allocated =
        (db.powerports.map fun p =>
          if isChildPeer db self.pk p then p.allocated_draw.getD 0 else 0).sum ∧
      (PowerPort.get_power_draw db self).maximum =
        (db.powerports.map fun p =>
          if isChildPeer db self.pk p then p.maximum_draw.getD 0 else 0).sum ∧
      (PowerPort.get_power_draw db self).outlet_count = (childOutlets db self.pk).length ∧
      ((PowerPort.get_power_draw db self).legs ≠ [] ↔
        ∃ fd ∈ db.powerfeeds, self.link_peer = some (.powerfeed fd.pk) ∧
          fd.phase = PowerPhase.threePhase) ∧
      ((∃ fd ∈ db.powerfeeds, self.link_peer = some (.powerfeed fd.pk) ∧
          fd.phase = PowerPhase.threePhase) →
        (PowerPort.get_power_draw db self).legs = feedLegChoices.map fun leg =>
          { name := leg
            allocated := (db.powerports.map fun p =>
              if isChildPeerOnLeg db self.pk leg p then p.allocated_draw.getD 0 else 0).sum
            maximum := (db.powerports.map fun p =>
              if isChildPeerOnLeg db self.pk leg p then p.maximum_draw.getD 0 else 0).sum
            outlet_count :=
              ((childOutlets db self.pk).filter fun o => o.feed_leg = some leg).length })) ∧
    (self.allocated_draw ≠ none ∨ self.maximum_draw ≠ none →
      PowerPort.get_power_draw db self =
        { allocated := self.allocated_draw.getD 0
          maximum := self.maximum_draw.getD 0
          outlet_count := (childOutlets db self.pk).length
          legs := [] }) := by
  have hsum : ∀ (ids : List Nat) (g : PowerPortRec → Option Nat),
      sumDraw (drawingPorts db ids) g =
        (db.powerports.map fun p => if peerFilter ids p then (g p).getD 0 else 0).sum := by
    intro ids g
    unfold sumDraw drawingPorts
    exact sum_filterMap_filter db.powerports (peerFilter ids) g
  have hlegfun : (fun leg =>
      (⟨leg,
        sumDraw (drawingPorts db
          (((childOutlets db self.pk).filter fun o => o.feed_leg = some leg).map (·.pk)))
          (·.allocated_draw),
        sumDraw (drawingPorts db
          (((childOutlets db self.pk).filter fun o => o.feed_leg = some leg).map (·.pk)))
          (·.maximum_draw),
        (((childOutlets db self.pk).filter fun o => o.feed_leg = some leg).map
          (·.pk)).length⟩ : LegDraw)) =
      fun leg =>
      (⟨leg,
        (db.powerports.map fun p =>
          if isChildPeerOnLeg db self.pk leg p then p.allocated_draw.getD 0 else 0).sum,
        (db.powerports.map fun p =>
          if isChildPeerOnLeg db self.pk leg p then p.maximum_draw.getD 0 else 0).sum,
        ((childOutlets db self.pk).filter fun o => o.feed_leg = some leg).length⟩ :
          LegDraw) := by
    funext leg
    have h1 := hsum (((childOutlets db self.pk).filter
      fun o => o.feed_leg = some leg).map (·.pk)) (·.allocated_draw)
    have h2 := hsum (((childOutlets db self.pk).filter
      fun o => o.feed_leg = some leg).map (·.pk)) (·.maximum_draw)
    rw [h1, h2,
      map_if_congr db.powerports _ (peerFilter_legOutlets_iff db self.pk leg)
        (fun p => p.allocated_draw.getD 0),
      map_if_congr db.powerports _ (peerFilter_legOutlets_iff db self.pk leg)
        (fun p => p.maximum_draw.getD 0),
      List.length_map]
  constructor
  · intro h
    rw [get_power_draw_aggregated db self h]
    refine ⟨?_, ?_, ?_, ?_, ?_⟩
    · show sumDraw (drawingPorts db ((childOutlets db self.pk).map (·.pk)))
        (·.allocated_draw) = _
      rw [hsum, map_if_congr db.powerports _ (peerFilter_childOutlets_iff db self.pk)
        (fun p => p.allocated_draw.getD 0)]
    · show sumDraw (drawingPorts db ((childOutlets db self.pk).map (·.pk)))
        (·.maximum_draw) = _
      rw [hsum, map_if_congr db.powerports _ (peerFilter_childOutlets_iff db self.pk)
        (fun p => p.maximum_draw.getD 0)]
    · show ((childOutlets db self.pk).map (·.pk)).length = _
      exact List.length_map _ _
    · by_cases hph : peerPhase db self.link_peer = some PowerPhase.threePhase
      · rw [if_pos hph]
        simp only [feedLegChoices, List.map_cons, List.map_nil, ne_eq,
          reduceCtorEq, not_false_eq_true, true_iff]
        exact (peerPhase_threePhase_iff db self.link_peer hfeeds).mp hph
      · rw [if_neg hph]
        simp only [ne_eq, not_true_eq_false, false_iff]
        exact fun hx => hph ((peerPhase_threePhase_iff db self.link_peer hfeeds).mpr hx)
    · intro hx
      rw [if_pos ((peerPhase_threePhase_iff db self.link_peer hfeeds).mpr hx), hlegfun]
  · intro h
    apply get_power_draw_administrative
    rcases h with h | h
    · exact fun hc => h hc.1
    · exact fun hc => h hc.2

/-- A sample database for the C2 witness: port 1 is fed by three-phase
feed 50 and has a child outlet 2 on leg A, into which port 3 (drawing
50 of 100 W) is plugged. -/
def dbC2 : PowerDB :=
  { powerports :=
      [⟨1, false, none, none, none, some (.powerfeed 50)⟩,
        ⟨3, false, none, some 100, some 50, some (.poweroutlet 2)⟩]
    poweroutlets := [⟨2, some 1, some .A⟩]
    powerfeeds := [⟨50, .threePhase⟩] }

/-- Witness for C2 at `dbC2`: the aggregated outlet count of port 1
is its child outlet count. -/
theorem power_draw_aggregation_witness :
    (PowerPort.get_power_draw dbC2 ⟨1, false, none, none, none, some (.powerfeed 50)⟩).outlet_count =
      (childOutlets dbC2 1).length :=
  ((power_draw_aggregation dbC2 ⟨1, false, none, none, none, some (.powerfeed 50)⟩
    (by decide)).1 ⟨rfl, rfl⟩).2.2.1

end NetboxDCIM
